import Mathlib

/-!
Verification of the hecate-gpu GPU management library (rust/hecate-gpu).

This file embeds the data model and the algorithms of the library in Lean:
the `FanCurve` interpolation, the monitor's bounded metrics history and
alert evaluation, the efficiency scores, and the NVIDIA/AMD backend
configuration paths.  Machine integers (`u32`, `u64`) are modelled as `Nat`
(all the operations involved stay far from overflow), `f32` arithmetic is
modelled as exact rational arithmetic (`ℚ`) with the Rust float-to-integer
cast modelled as truncation saturating at zero, and effectful device / sysfs
operations are modelled by explicit oracles recording the mutations
performed, in order, together with an optional error.
-/

namespace HecateGpu

/-- GPU vendor enumeration (lib.rs `GpuVendor`). -/
inductive GpuVendor
  | nvidia
  | amd
  | intel
  | unknown
  deriving DecidableEq, Repr

/-- GPU type classification (lib.rs `GpuType`). -/
inductive GpuType
  | integrated
  | discrete
  | external
  deriving DecidableEq, Repr

/-- Power state enumeration (lib.rs `PowerState`). -/
inductive PowerState
  | active
  | idle
  | suspended
  | powerSave
  | switching
  deriving DecidableEq, Repr

/-- Power management modes (lib.rs `PowerMode`). -/
inductive PowerMode
  | maxPerformance
  | balanced
  | powerSaver
  | custom
  | auto
  deriving DecidableEq, Repr

/-- PCI device information (lib.rs `PciInfo`). -/
structure PciInfo where
  domain : Nat
  bus : Nat
  device : Nat
  function : Nat
  vendor_id : Nat
  device_id : Nat
  deriving DecidableEq, Repr

/-- Real-time GPU status information (lib.rs `GpuStatus`). -/
structure GpuStatus where
  index : Nat
  name : String
  vendor : GpuVendor
  gpu_type : GpuType
  temperature : Nat
  power_draw : Nat
  power_limit : Nat
  memory_used : Nat
  memory_total : Nat
  utilization_gpu : Nat
  utilization_memory : Nat
  fan_speed : Option Nat
  clock_graphics : Nat
  clock_memory : Nat
  driver_version : Option String
  pci_info : PciInfo
  power_state : PowerState
  deriving DecidableEq, Repr

/-- Fan curve configuration (lib.rs `FanCurve`): control points as
`(temperature_celsius, fan_speed_percentage)`. -/
structure FanCurve where
  points : List (Nat × Nat)
  deriving DecidableEq, Repr

/-- GPU optimization configuration (lib.rs `GpuConfig`). -/
structure GpuConfig where
  power_mode : PowerMode
  power_limit : Option Nat
  temp_target : Option Nat
  fan_curve : Option FanCurve
  memory_clock_offset : Option Int
  gpu_clock_offset : Option Int
  auto_load_balance : Bool
  deriving DecidableEq, Repr

namespace FanCurve

/-- The default aggressive fan curve (lib.rs `FanCurve::aggressive`). -/
def aggressive : FanCurve :=
  ⟨[(30, 20), (50, 40), (70, 60), (85, 100)]⟩

/-- The quiet fan curve (lib.rs `FanCurve::quiet`). -/
def quiet : FanCurve :=
  ⟨[(40, 0), (60, 30), (80, 70), (90, 100)]⟩

/-- One linear-interpolation step of lib.rs `FanCurve::calculate_fan_speed`:
`speed1 + (speed_diff as f32 * temp_ratio) as u32` where
`temp_ratio = (t - t1)/(t2 - t1)`.  The Rust `as u32` cast truncates toward
zero and saturates at 0 for negative (and NaN) values; for `s2 ≥ s1` and
`t1 < t2` this is exactly Nat flooring division, and for `s2 < s1` (product
non-positive) as well as `t1 = t2` (NaN) the cast yields 0, which Nat
subtraction-by-zero / division-by-zero reproduce. -/
def interp (p q : Nat × Nat) (t : Nat) : Nat :=
  p.2 + (q.2 - p.2) * (t - p.1) / (q.1 - p.1)

/-- The `windows(2)` scan of lib.rs `FanCurve::calculate_fan_speed`: return
the interpolated speed of the first bracketing pair of consecutive points. -/
def scanWindows : List (Nat × Nat) → Nat → Option Nat
  | p :: q :: rest, t =>
      if p.1 ≤ t ∧ t ≤ q.1 then some (interp p q t)
      else scanWindows (q :: rest) t
  | _, _ => none

/-- lib.rs `FanCurve::calculate_fan_speed`: 50 for an empty curve; otherwise
the first bracketing window's interpolation, and outside the curve range the
first point's speed (below) or the last point's speed (above). -/
def calculate_fan_speed (c : FanCurve) (temperature : Nat) : Nat :=
  match h : c.points with
  | [] => 50
  | p :: rest =>
      match scanWindows (p :: rest) temperature with
      | some s => s
      | none =>
          if temperature < p.1 then p.2
          else ((p :: rest).getLast (by simp)).2

end FanCurve

/-- Single metrics point in time (monitor.rs `MetricsPoint`). -/
structure MetricsPoint where
  timestamp : Nat
  temperature : Nat
  power_draw : Nat
  utilization_gpu : Nat
  utilization_memory : Nat
  memory_used : Nat
  clock_graphics : Nat
  clock_memory : Nat
  fan_speed : Option Nat
  deriving DecidableEq, Repr

/-- monitor.rs `impl From<&GpuStatus> for MetricsPoint`; the wall-clock read
`SystemTime::now()` is passed in explicitly as `now`. -/
def MetricsPoint.ofStatus (status : GpuStatus) (now : Nat) : MetricsPoint where
  timestamp := now
  temperature := status.temperature
  power_draw := status.power_draw
  utilization_gpu := status.utilization_gpu
  utilization_memory := status.utilization_memory
  memory_used := status.memory_used
  clock_graphics := status.clock_graphics
  clock_memory := status.clock_memory
  fan_speed := status.fan_speed

/-- Alert configuration (monitor.rs `AlertConfig`); the sustained duration is
in seconds. -/
structure AlertConfig where
  temperature_warning : Nat
  temperature_critical : Nat
  power_usage_warning : Nat
  memory_usage_warning : Nat
  utilization_sustained_threshold : Nat
  utilization_sustained_duration : Nat
  enable_performance_alerts : Bool
  enable_thermal_alerts : Bool
  enable_power_alerts : Bool
  enable_memory_alerts : Bool
  deriving DecidableEq, Repr

/-- monitor.rs `AlertConfig::default`. -/
def AlertConfig.default : AlertConfig where
  temperature_warning := 80
  temperature_critical := 90
  power_usage_warning := 90
  memory_usage_warning := 85
  utilization_sustained_threshold := 95
  utilization_sustained_duration := 300
  enable_performance_alerts := true
  enable_thermal_alerts := true
  enable_power_alerts := true
  enable_memory_alerts := true

/-- GPU monitoring events (lib.rs `GpuEvent`); the two scores of
`PerformanceDegraded` are `f32` in the source, modelled as `ℚ`. -/
inductive GpuEvent
  | temperatureAlert (gpu_index temperature threshold : Nat)
  | vramAlert (gpu_index used_percent threshold : Nat)
  | powerAlert (gpu_index power_draw power_limit : Nat)
  | gpuSwitched (from_gpu to_gpu : Nat) (reason : String)
  | driverUpdated (gpu_index : Nat) (old_version new_version : String)
  | performanceDegraded (gpu_index : Nat) (expected_score actual_score : ℚ)
  deriving DecidableEq, Repr

/-- monitor.rs `GpuMonitor::new` sets `max_history_length` to 1440
(24 hours at 1-minute intervals). -/
def max_history_length : Nat := 1440

/-- The `while history.len() > max { history.pop_front() }` loop of
monitor.rs `GpuMonitor::record_metrics`, with the list front being the
oldest point. -/
def trimToCap (cap : Nat) : List MetricsPoint → List MetricsPoint
  | [] => []
  | p :: rest => if (p :: rest).length > cap then trimToCap cap rest else p :: rest

/-- monitor.rs `GpuMonitor::check_sustained_utilization_alert`: scan the
history tail (newest first) back to the duration cutoff and require every
scanned point to be at or above the sustained-utilization threshold; fire
only with at least 5 points of history.  `now` is the wall clock read. -/
def check_sustained_utilization_alert (cfg : AlertConfig) (gpu_index : Nat)
    (history : List MetricsPoint) (now : Nat) (status : GpuStatus) :
    List GpuEvent :=
  let threshold_time := now - cfg.utilization_sustained_duration
  let sustained_high_util :=
    (history.reverse.takeWhile (fun point => point.timestamp ≥ threshold_time)).all
      (fun point => point.utilization_gpu ≥ cfg.utilization_sustained_threshold)
  if sustained_high_util ∧ history.length ≥ 5 then
    [.performanceDegraded gpu_index (7 / 10) ((status.utilization_gpu : ℚ) / 100)]
  else []

/-- The thermal block of monitor.rs `GpuMonitor::check_alerts`: critical
threshold first, else warning threshold. -/
def thermal_alert_events (cfg : AlertConfig) (gpu_index : Nat)
    (status : GpuStatus) : List GpuEvent :=
  if cfg.enable_thermal_alerts then
    if status.temperature ≥ cfg.temperature_critical then
      [.temperatureAlert gpu_index status.temperature cfg.temperature_critical]
    else if status.temperature ≥ cfg.temperature_warning then
      [.temperatureAlert gpu_index status.temperature cfg.temperature_warning]
    else []
  else []

/-- The power block of monitor.rs `GpuMonitor::check_alerts`: the usage
percentage divides by `max(power_limit, 1)`. -/
def power_alert_events (cfg : AlertConfig) (gpu_index : Nat)
    (status : GpuStatus) : List GpuEvent :=
  if cfg.enable_power_alerts then
    if status.power_draw * 100 / max status.power_limit 1 ≥
        cfg.power_usage_warning then
      [.powerAlert gpu_index status.power_draw status.power_limit]
    else []
  else []

/-- The memory block of monitor.rs `GpuMonitor::check_alerts`: the usage
percentage divides by `max(memory_total, 1)`. -/
def memory_alert_events (cfg : AlertConfig) (gpu_index : Nat)
    (status : GpuStatus) : List GpuEvent :=
  if cfg.enable_memory_alerts then
    if status.memory_used * 100 / max status.memory_total 1 ≥
        cfg.memory_usage_warning then
      [.vramAlert gpu_index (status.memory_used * 100 / max status.memory_total 1)
        cfg.memory_usage_warning]
    else []
  else []

/-- monitor.rs `GpuMonitor::check_alerts`: thermal, power, memory and
sustained-utilization alert rules evaluated in order, each behind its enable
flag.  Returns the events emitted, in order. -/
def check_alerts (cfg : AlertConfig) (gpu_index : Nat)
    (history : List MetricsPoint) (now : Nat) (status : GpuStatus) :
    List GpuEvent :=
  thermal_alert_events cfg gpu_index status ++
  power_alert_events cfg gpu_index status ++
  memory_alert_events cfg gpu_index status ++
  (if cfg.enable_performance_alerts then
      check_sustained_utilization_alert cfg gpu_index history now status
    else [])

/-- monitor.rs `GpuMonitor::record_metrics` restricted to its observable
effects: append the derived point to the device's history, trim the history
to `max_history_length`, and evaluate the alert rules on the new state.  The
per-device histories are modelled as a total map from device index to list
(oldest first); `now` is the wall clock read.  Returns the updated history
map and the events emitted. -/
def record_metrics (cfg : AlertConfig) (histories : Nat → List MetricsPoint)
    (gpu_index : Nat) (status : GpuStatus) (now : Nat) :
    (Nat → List MetricsPoint) × List GpuEvent :=
  let point := MetricsPoint.ofStatus status now
  let newHistory := trimToCap max_history_length (histories gpu_index ++ [point])
  (fun j => if j = gpu_index then newHistory else histories j,
   check_alerts cfg gpu_index newHistory now status)

/-- The history-map component of one `record_metrics` call, used to fold a
whole sequence of calls `(gpu_index, status, now)` over the monitor state. -/
def recordStep (cfg : AlertConfig) (histories : Nat → List MetricsPoint)
    (call : Nat × GpuStatus × Nat) : Nat → List MetricsPoint :=
  (record_metrics cfg histories call.1 call.2.1 call.2.2).1

/-- monitor.rs `GpuMonitor::calculate_efficiency_score`: average of the per
point averages of utilization, temperature and power, each normalized; `f32`
arithmetic modelled as exact rational arithmetic. -/
def monitor_efficiency_score (metrics : List MetricsPoint) : ℚ :=
  if metrics = [] then 0
  else
    let n : ℚ := metrics.length
    let avg_utilization :=
      ((((metrics.map (fun m => m.utilization_gpu)).sum : Nat) : ℚ)) / n
    let avg_temperature :=
      ((((metrics.map (fun m => m.temperature)).sum : Nat) : ℚ)) / n
    let avg_power :=
      ((((metrics.map (fun m => m.power_draw)).sum : Nat) : ℚ)) / n
    let utilization_score := avg_utilization / 100
    let thermal_score := (100 - min avg_temperature 100) / 100
    let power_score := (300 - min avg_power 300) / 300
    (utilization_score + thermal_score + power_score) / 3

/-- lib.rs `calculate_efficiency_score`: power headroom, thermal headroom
against a 90 °C ceiling, and utilization, averaged; `f32` arithmetic
modelled as exact rational arithmetic. -/
def calculate_efficiency_score (status : GpuStatus) : ℚ :=
  let power_efficiency := 1 - (status.power_draw : ℚ) / (status.power_limit : ℚ)
  let thermal_efficiency := 1 - min ((status.temperature : ℚ) / 90) 1
  let utilization_score := (status.utilization_gpu : ℚ) / 100
  (power_efficiency + thermal_efficiency + utilization_score) / 3

/-- GPU management error types (error.rs `GpuError`), restricted to the
variants reachable from the embedded code paths. -/
inductive GpuError
  | gpuNotFound (index : Nat)
  | backendNotAvailable (vendor : GpuVendor)
  | operationNotSupported (what : String)
  | nvmlError (msg : String)
  | systemError (msg : String)
  | powerError (msg : String)
  | thermalError (msg : String)
  deriving DecidableEq, Repr

/-- A modelled effectful sub-computation on a device: the list of mutations
actually performed on the device, in order, together with `none` for success
or `some e` when the computation returned `Err(e)` (after which nothing
further runs). -/
def Step (α : Type) : Type := List α × Option GpuError

/-- Sequencing of two effectful steps: the second runs only when the first
succeeded; the mutations of the first are kept either way (no rollback). -/
def Step.andThen {α : Type} (a b : Step α) : Step α :=
  match a with
  | (as, none) => (as ++ b.1, b.2)
  | (as, some e) => (as, some e)

/-- A step that performs nothing and succeeds (`Ok(())`). -/
def Step.ok {α : Type} : Step α := ([], none)

-- ===========================================================================
-- NVIDIA backend (nvidia.rs)
-- ===========================================================================

/-- Mutations the NVIDIA backend can perform on an NVML device. -/
inductive NvAction
  | setPowerManagementLimit (milliwatts : Nat)
  | setPersistent (enabled : Bool)
  | setAutoBoostedClocks (enabled : Bool)
  deriving DecidableEq, Repr

/-- Oracle for one NVML device: the results the NVML binding returns for
each primitive call nvidia.rs makes during `apply_config`.  Read results are
`Except` (the value or the NVML error); mutations yield `none` on success. -/
structure NvDevice where
  utilization_gpu : Except GpuError Nat
  temperature : Except GpuError Nat
  power_limit_constraints_max : Option Nat
  set_power_management_limit : Nat → Option GpuError
  set_persistent : Bool → Option GpuError
  set_auto_boosted_clocks : Bool → Option GpuError

namespace NvidiaBackend

/-- `device.set_power_management_limit(mw)` with the error mapped through
`GpuError::from`. -/
def setPowerLimitStep (d : NvDevice) (mw : Nat) : Step NvAction :=
  match d.set_power_management_limit mw with
  | none => ([.setPowerManagementLimit mw], none)
  | some e => ([], some e)

/-- `device.set_persistent(b)`. -/
def setPersistentStep (d : NvDevice) (b : Bool) : Step NvAction :=
  match d.set_persistent b with
  | none => ([.setPersistent b], none)
  | some e => ([], some e)

/-- `device.set_auto_boosted_clocks(b)`. -/
def setAutoBoostStep (d : NvDevice) (b : Bool) : Step NvAction :=
  match d.set_auto_boosted_clocks b with
  | none => ([.setAutoBoostedClocks b], none)
  | some e => ([], some e)

/-- nvidia.rs `NvidiaBackend::set_max_performance`: raise the power limit to
the maximum constraint when constraints are readable (a constraint-read
failure is skipped silently), then enable persistence mode and auto boost. -/
def set_max_performance (d : NvDevice) : Step NvAction :=
  Step.andThen
    (match d.power_limit_constraints_max with
      | some maxLimit => setPowerLimitStep d maxLimit
      | none => Step.ok)
    (Step.andThen (setPersistentStep d true) (setAutoBoostStep d true))

/-- nvidia.rs `NvidiaBackend::set_balanced`: power limit to 90% of the
maximum constraint (integer truncation), when constraints are readable. -/
def set_balanced (d : NvDevice) : Step NvAction :=
  match d.power_limit_constraints_max with
  | some maxLimit => setPowerLimitStep d (maxLimit * 90 / 100)
  | none => Step.ok

/-- nvidia.rs `NvidiaBackend::set_power_saver`: power limit to 70% of the
maximum constraint when readable, then disable auto boost. -/
def set_power_saver (d : NvDevice) : Step NvAction :=
  Step.andThen
    (match d.power_limit_constraints_max with
      | some maxLimit => setPowerLimitStep d (maxLimit * 70 / 100)
      | none => Step.ok)
    (setAutoBoostStep d false)

/-- nvidia.rs `NvidiaBackend::apply_power_mode`: dispatch on the mode;
`Auto` reads the instantaneous utilization once and picks max-performance
above 80, power-saver below 20, balanced otherwise; `Custom` does nothing. -/
def apply_power_mode (d : NvDevice) (mode : PowerMode) : Step NvAction :=
  match mode with
  | .maxPerformance => set_max_performance d
  | .balanced => set_balanced d
  | .powerSaver => set_power_saver d
  | .custom => Step.ok
  | .auto =>
      match d.utilization_gpu with
      | .error e => ([], some e)
      | .ok u =>
          if u > 80 then set_max_performance d
          else if u < 20 then set_power_saver d
          else set_balanced d

/-- nvidia.rs `NvidiaBackend::apply_fan_curve`: read the temperature,
compute the target speed, then always fail with `OperationNotSupported`
because NVML exposes no fan control. -/
def apply_fan_curve (d : NvDevice) (curve : FanCurve) : Step NvAction :=
  match d.temperature with
  | .error e => ([], some e)
  | .ok temp =>
      let _target_speed := curve.calculate_fan_speed temp
      ([], some (.operationNotSupported "Fan control"))

/-- nvidia.rs `NvidiaBackend::apply_clock_offsets`: clock offsets are not
supported via NVML; the function only warns and always returns `Ok(())`. -/
def apply_clock_offsets (_d : NvDevice) (_gpu_offset _mem_offset : Option Int) :
    Step NvAction :=
  Step.ok

/-- nvidia.rs `NvidiaBackend::apply_config` (after device lookup): apply the
power mode, then the optional explicit power limit (watts × 1000), then the
optional fan curve — whose failure is only logged (`if let Err`) and NOT
propagated — then the clock offsets. -/
def apply_config (d : NvDevice) (config : GpuConfig) : Step NvAction :=
  Step.andThen (apply_power_mode d config.power_mode)
    (Step.andThen
      (match config.power_limit with
        | some limit => setPowerLimitStep d (limit * 1000)
        | none => Step.ok)
      (Step.andThen
        (match config.fan_curve with
          | some curve => ((apply_fan_curve d curve).1, none)
          | none => Step.ok)
        (apply_clock_offsets d config.gpu_clock_offset config.memory_clock_offset)))

end NvidiaBackend

/-- Oracle for the telemetry reads of nvidia.rs
`NvidiaBackend::get_device_status`.  Each field is the result the NVML
binding returns for the corresponding call; `power_usage` and
`power_management_limit` are in milliwatts. -/
structure NvStatusOracle where
  name : Except GpuError String
  temperature : Except GpuError Nat
  power_usage : Except GpuError Nat
  power_management_limit : Except GpuError Nat
  memory_used : Nat
  memory_total : Nat
  memory_info_ok : Option GpuError
  utilization_gpu : Nat
  utilization_memory : Nat
  utilization_ok : Option GpuError
  fan_speed : Option Nat
  clock_graphics : Except GpuError Nat
  clock_memory : Except GpuError Nat
  pci_bus : Nat
  pci_device : Nat
  pci_ok : Option GpuError

/-- nvidia.rs `NvidiaBackend::get_device_status`: read each telemetry item
(any read failure except fan speed aborts with that error, matching the
source's `?` operators), convert milliwatts to watts, and assemble the
`GpuStatus`; GPU type is discrete iff the power limit is at least 75 W,
power state is active iff utilization exceeds 10. -/
def NvidiaBackend.get_device_status (o : NvStatusOracle) (index : Nat) :
    Except GpuError GpuStatus :=
  match o.name with
  | .error e => .error e
  | .ok name =>
  match o.temperature with
  | .error e => .error e
  | .ok temperature =>
  match o.power_usage with
  | .error e => .error e
  | .ok power_usage =>
  match o.power_management_limit with
  | .error e => .error e
  | .ok power_management_limit =>
  match o.memory_info_ok with
  | some e => .error e
  | none =>
  match o.utilization_ok with
  | some e => .error e
  | none =>
  match o.clock_graphics with
  | .error e => .error e
  | .ok clock_graphics =>
  match o.clock_memory with
  | .error e => .error e
  | .ok clock_memory =>
  match o.pci_ok with
  | some e => .error e
  | none =>
    let power_draw := power_usage / 1000
    let power_limit := power_management_limit / 1000
    let pci_info : PciInfo :=
      { domain := 0, bus := o.pci_bus, device := o.pci_device, function := 0
        vendor_id := 0x10DE, device_id := o.pci_device }
    let gpu_type := if power_limit < 75 then GpuType.integrated else GpuType.discrete
    let power_state :=
      if o.utilization_gpu > 10 then PowerState.active else PowerState.idle
    .ok
      { index := index, name := name, vendor := .nvidia, gpu_type := gpu_type
        temperature := temperature, power_draw := power_draw
        power_limit := power_limit
        memory_used := o.memory_used, memory_total := o.memory_total
        utilization_gpu := o.utilization_gpu
        utilization_memory := o.utilization_memory
        fan_speed := o.fan_speed, clock_graphics := clock_graphics
        clock_memory := clock_memory, driver_version := some "Unknown"
        pci_info := pci_info, power_state := power_state }

-- ===========================================================================
-- AMD backend (amd.rs)
-- ===========================================================================

/-- Mutations the AMD backend performs through sysfs writes. -/
inductive AmdAction
  | writePerformanceLevel (profile : String)
  | writePowerCap (microwatts : Nat)
  | writePwmEnable (value : String)
  | writePwm (value : Nat)
  deriving DecidableEq, Repr

/-- Oracle for one AMD device during configuration application: whether a
hwmon directory was found, the temperature `read_temperature` yields (that
function succeeds on every path, falling back to 50 °C), and the outcome of
each sysfs write (`none` = success, `some msg` = the I/O error message). -/
structure AmdDevice where
  hwmon_present : Bool
  temperature : Nat
  write_performance_level : String → Option String
  write_power_cap : Nat → Option String
  write_pwm_enable : String → Option String
  write_pwm : Nat → Option String

namespace AmdBackend

/-- amd.rs `AmdBackend::apply_power_mode`: map the mode to a
`power_dpm_force_performance_level` profile string — note `Auto` maps to
"auto", the same profile as `Balanced`, without reading utilization — and
write it; a write failure surfaces as `PowerError`. -/
def apply_power_mode (d : AmdDevice) (mode : PowerMode) : Step AmdAction :=
  let profile :=
    match mode with
    | .maxPerformance => "high"
    | .balanced => "auto"
    | .powerSaver => "low"
    | .custom => "manual"
    | .auto => "auto"
  match d.write_performance_level profile with
  | some e => ([], some (.powerError ("Failed to set power profile: " ++ e)))
  | none => ([.writePerformanceLevel profile], none)

/-- amd.rs `AmdBackend::set_device_power_limit`: with a hwmon directory,
write the limit in microwatts to `power1_cap` (failure surfaces as
`PowerError`); without hwmon the call is a successful no-op. -/
def set_device_power_limit (d : AmdDevice) (limit_watts : Nat) : Step AmdAction :=
  if d.hwmon_present then
    let limit_microwatts := limit_watts * 1000000
    match d.write_power_cap limit_microwatts with
    | some e => ([], some (.powerError ("Failed to set power limit: " ++ e)))
    | none => ([.writePowerCap limit_microwatts], none)
  else Step.ok

/-- amd.rs `AmdBackend::apply_device_fan_curve`: with a hwmon directory,
read the temperature, compute the curve's target speed, scale it to a 0-255
PWM value, enable manual fan control (an enable-write failure is only
warned about), then write the PWM value (failure surfaces as
`ThermalError`); without hwmon the call is a successful no-op. -/
def apply_device_fan_curve (d : AmdDevice) (curve : FanCurve) : Step AmdAction :=
  if d.hwmon_present then
    let target_speed := curve.calculate_fan_speed d.temperature
    let pwm_value := target_speed * 255 / 100
    let enableActions : List AmdAction :=
      match d.write_pwm_enable "1" with
      | some _ => []
      | none => [.writePwmEnable "1"]
    match d.write_pwm pwm_value with
    | some e => (enableActions, some (.thermalError ("Failed to set fan speed: " ++ e)))
    | none => (enableActions ++ [.writePwm pwm_value], none)
  else Step.ok

/-- amd.rs `AmdBackend::apply_config` (after device lookup): apply the power
mode, then the optional explicit power limit, then the optional fan curve,
each failure propagating with `?`; the config's clock offsets are never
touched. -/
def apply_config (d : AmdDevice) (config : GpuConfig) : Step AmdAction :=
  Step.andThen (apply_power_mode d config.power_mode)
    (Step.andThen
      (match config.power_limit with
        | some limit => set_device_power_limit d limit
        | none => Step.ok)
      (match config.fan_curve with
        | some curve => apply_device_fan_curve d curve
        | none => Step.ok))

end AmdBackend

/-- Oracle for the sysfs reads of amd.rs `AmdBackend::get_device_status`.
Each read is modelled at the read-then-parse boundary: `none` means the file
could not be read, `some none` a file whose contents did not parse, and
`some (some v)` a successfully parsed value. -/
structure AmdFileOracle where
  product_name : Option String
  pci_id : String
  temp_input : Option (Option Nat)
  power_input : Option (Option Nat)
  power_cap : Option (Option Nat)
  mem_info_vram_used : Option (Option Nat)
  mem_info_vram_total : Option (Option Nat)
  gpu_busy_percent : Option (Option Nat)
  sclk_current : Option (Option Nat)
  mclk_current : Option (Option Nat)
  pwm1 : Option (Option Nat)
  hwmon_present : Bool
  uevent_pci_id : Option (Nat × Nat)
  uevent_slot : Option (Nat × Nat)
  driver_version : Option String

namespace AmdBackend

/-- amd.rs `AmdBackend::get_device_name`: first readable non-empty name
source, else a fallback built from the PCI id. -/
def get_device_name (o : AmdFileOracle) : String :=
  match o.product_name with
  | some name => if name = "" then "AMD GPU " ++ o.pci_id else name
  | none => "AMD GPU " ++ o.pci_id

/-- amd.rs `AmdBackend::read_temperature`: a parsed `tempN_input` value in
millidegrees divided by 1000, else the 50 °C fallback (the function returns
`Ok` on every path). -/
def read_temperature (o : AmdFileOracle) : Nat :=
  if o.hwmon_present then
    match o.temp_input with
    | some (some millidegrees) => millidegrees / 1000
    | _ => 50
  else 50

/-- amd.rs `AmdBackend::read_power_info`: power draw from `power1_input` in
microwatts (default 0), power limit from `power1_cap` (default 300 W). -/
def read_power_info (o : AmdFileOracle) : Nat × Nat :=
  if o.hwmon_present then
    (match o.power_input with
      | some (some microwatts) => microwatts / 1000000
      | _ => 0,
     match o.power_cap with
      | some (some microwatts) => microwatts / 1000000
      | _ => 300)
  else (0, 300)

/-- amd.rs `AmdBackend::read_memory_info`: `mem_info_vram_used` parsed with
fallback 0 (both for an unreadable file and an unparsable one), and
`mem_info_vram_total` parsed with fallback 8589934592 (8 GiB); the two
fallbacks are substituted independently and the pair is never clamped. -/
def read_memory_info (o : AmdFileOracle) : Nat × Nat :=
  (match o.mem_info_vram_used with
    | some (some used) => used
    | some none => 0
    | none => 0,
   match o.mem_info_vram_total with
    | some (some total) => total
    | some none => 8589934592
    | none => 8589934592)

/-- amd.rs `AmdBackend::read_gpu_utilization`: parsed `gpu_busy_percent`,
else 0. -/
def read_gpu_utilization (o : AmdFileOracle) : Nat :=
  match o.gpu_busy_percent with
  | some (some busy) => busy
  | _ => 0

/-- amd.rs `AmdBackend::read_clock_info`: current clocks parsed out of
`pp_dpm_sclk` / `pp_dpm_mclk`, else 1000 MHz defaults. -/
def read_clock_info (o : AmdFileOracle) : Nat × Nat :=
  (match o.sclk_current with
    | some (some clock) => clock
    | _ => 1000,
   match o.mclk_current with
    | some (some clock) => clock
    | _ => 1000)

/-- amd.rs `AmdBackend::read_fan_speed`: PWM value 0-255 scaled to a
percentage, `none` when unavailable. -/
def read_fan_speed (o : AmdFileOracle) : Option Nat :=
  if o.hwmon_present then
    match o.pwm1 with
    | some (some pwm) => some (pwm * 100 / 255)
    | _ => none
  else none

/-- amd.rs `AmdBackend::parse_pci_info`: ids from the uevent `PCI_ID` line
(defaults 0x1002/0), bus and device from `PCI_SLOT_NAME` (defaults 0). -/
def parse_pci_info (o : AmdFileOracle) : PciInfo :=
  let ids := o.uevent_pci_id.getD (0x1002, 0)
  let slot := o.uevent_slot.getD (0, 0)
  { domain := 0, bus := slot.1, device := slot.2, function := 0
    vendor_id := ids.1, device_id := ids.2 }

/-- amd.rs `AmdBackend::get_device_status`: assemble a `GpuStatus` from the
sysfs reads; every helper read has a fallback, so the function always
succeeds.  GPU type is discrete iff the power limit is at least 75 W; power
state is active iff utilization exceeds 10; `utilization_memory` mirrors
`utilization_gpu`. -/
def get_device_status (o : AmdFileOracle) (index : Nat) : GpuStatus :=
  let name := get_device_name o
  let temperature := read_temperature o
  let power := read_power_info o
  let memory := read_memory_info o
  let utilization_gpu := read_gpu_utilization o
  let clocks := read_clock_info o
  let fan_speed := read_fan_speed o
  let pci_info := parse_pci_info o
  let gpu_type := if power.2 < 75 then GpuType.integrated else GpuType.discrete
  let power_state := if utilization_gpu > 10 then PowerState.active else PowerState.idle
  { index := index, name := name, vendor := .amd, gpu_type := gpu_type
    temperature := temperature, power_draw := power.1, power_limit := power.2
    memory_used := memory.1, memory_total := memory.2
    utilization_gpu := utilization_gpu, utilization_memory := utilization_gpu
    fan_speed := fan_speed, clock_graphics := clocks.1, clock_memory := clocks.2
    driver_version := o.driver_version, pci_info := pci_info
    power_state := power_state }

end AmdBackend

-- ===========================================================================
-- GpuManager::switch_gpu (lib.rs)
-- ===========================================================================

/-- The slice of a `GpuBackend` trait object relevant to `switch_gpu`: the
switching-capability flag and the result of `switch_gpu(from, to)`
(`none` = success). -/
structure BackendSwitch where
  supports_gpu_switching : Bool
  switch_gpu : Nat → Nat → Option GpuError

/-- nvidia.rs `supports_gpu_switching` / `switch_gpu`: reports support but
unconditionally fails with `OperationNotSupported`. -/
def nvidiaSwitch : BackendSwitch where
  supports_gpu_switching := true
  switch_gpu := fun _ _ =>
    some (.operationNotSupported "GPU switching requires Optimus configuration")

/-- amd.rs `supports_gpu_switching` / `switch_gpu`: reports support but
unconditionally fails with `OperationNotSupported`. -/
def amdSwitch : BackendSwitch where
  supports_gpu_switching := true
  switch_gpu := fun _ _ =>
    some (.operationNotSupported "AMD GPU switching requires DRI_PRIME configuration")

/-- lib.rs `GpuManager::switch_gpu`: resolve both indices in the cached
device list (else `GpuNotFound`); when the source device's vendor has a
registered backend, require switching support, perform the backend switch,
and only then broadcast a `GpuSwitched` event; when the vendor has no
backend, return success without doing anything.  Returns the events sent
and the call's result. -/
def GpuManager.switch_gpu (gpus : List GpuStatus)
    (backends : GpuVendor → Option BackendSwitch)
    (from_index to_index : Nat) (reason : String) :
    List GpuEvent × Option GpuError :=
  match gpus.find? (fun g => g.index = from_index) with
  | none => ([], some (.gpuNotFound from_index))
  | some from_gpu =>
      match gpus.find? (fun g => g.index = to_index) with
      | none => ([], some (.gpuNotFound to_index))
      | some _to_gpu =>
          match backends from_gpu.vendor with
          | none => ([], none)
          | some backend =>
              if ¬ backend.supports_gpu_switching then
                ([], some (.operationNotSupported "GPU switching"))
              else
                match backend.switch_gpu from_index to_index with
                | some e => ([], some e)
                | none => ([.gpuSwitched from_index to_index reason], none)

-- ===========================================================================
-- Spec-words reference definition and concrete fixtures
-- ===========================================================================

/-- The interpolation formula in the spec's words (§4.4): "linearly
interpolate: `speed1 + (speed2-speed1) * (t-t1)/(t2-t1)`, truncating to
integer percentage" — i.e. the exact signed offset truncated toward zero
(`Int.tdiv` truncates toward zero), without the zero-saturation the Rust `f32 → u32`
cast performs.  Used only to compare the code's behavior against the spec's
formula. -/
def interpSpecFormula (p q : Nat × Nat) (t : Nat) : Int :=
  (p.2 : Int) +
    Int.tdiv (((q.2 : Int) - (p.2 : Int)) * ((t : Int) - (p.1 : Int)))
      ((q.1 : Int) - (p.1 : Int))

/-- A concrete `GpuStatus` fixture for instantiating theorems at specific
inputs; the fields not under test are fixed to benign values. -/
def statusFixture (index : Nat) (vendor : GpuVendor)
    (temperature power_draw power_limit memory_used memory_total
      utilization_gpu : Nat) : GpuStatus where
  index := index
  name := "Test GPU"
  vendor := vendor
  gpu_type := .discrete
  temperature := temperature
  power_draw := power_draw
  power_limit := power_limit
  memory_used := memory_used
  memory_total := memory_total
  utilization_gpu := utilization_gpu
  utilization_memory := 50
  fan_speed := some 50
  clock_graphics := 1500
  clock_memory := 7000
  driver_version := some "470.86"
  pci_info := { domain := 0, bus := 1, device := 0, function := 0
                vendor_id := 0x10DE, device_id := 0x2204 }
  power_state := .active

/-- A concrete `MetricsPoint` fixture. -/
def pointFixture (timestamp temperature power_draw utilization_gpu : Nat) :
    MetricsPoint where
  timestamp := timestamp
  temperature := temperature
  power_draw := power_draw
  utilization_gpu := utilization_gpu
  utilization_memory := 50
  memory_used := 1073741824
  clock_graphics := 1500
  clock_memory := 7000
  fan_speed := some 60

/-- An NVML device on which every primitive operation succeeds, with a
200 W maximum power constraint, 50% utilization and 60 °C temperature. -/
def nvDeviceAllOk : NvDevice where
  utilization_gpu := .ok 50
  temperature := .ok 60
  power_limit_constraints_max := some 200000
  set_power_management_limit := fun _ => none
  set_persistent := fun _ => none
  set_auto_boosted_clocks := fun _ => none

/-- An AMD device (apply side) on which every sysfs write succeeds. -/
def amdDeviceAllOk : AmdDevice where
  hwmon_present := true
  temperature := 60
  write_performance_level := fun _ => none
  write_power_cap := fun _ => none
  write_pwm_enable := fun _ => none
  write_pwm := fun _ => none

/-- A `GpuConfig` with balanced power mode and an aggressive fan curve, no
explicit power limit and no clock offsets. -/
def cfgBalancedWithFan : GpuConfig where
  power_mode := .balanced
  power_limit := none
  temp_target := some 83
  fan_curve := some FanCurve.aggressive
  memory_clock_offset := none
  gpu_clock_offset := none
  auto_load_balance := true

/-- AMD sysfs oracle on which the used-VRAM file reports 100 bytes and the
total-VRAM file 50 bytes (all other reads succeed with benign values). -/
def amdOracleUsedExceedsTotal : AmdFileOracle where
  product_name := some "AMD Test GPU"
  pci_id := "0x1002:0x73df"
  temp_input := some (some 65000)
  power_input := some (some 120000000)
  power_cap := some (some 300000000)
  mem_info_vram_used := some (some 100)
  mem_info_vram_total := some (some 50)
  gpu_busy_percent := some (some 40)
  sclk_current := some (some 1500)
  mclk_current := some (some 1000)
  pwm1 := some (some 128)
  hwmon_present := true
  uevent_pci_id := some (0x1002, 0x73df)
  uevent_slot := some (1, 0)
  driver_version := some "6.3.6"

/-- The AMD sysfs oracle above with the used-VRAM file missing. -/
def amdOracleNoUsed : AmdFileOracle :=
  { amdOracleUsedExceedsTotal with mem_info_vram_used := none }

/-- An AMD device whose `power1_cap` write fails with a permission error. -/
def amdDevicePowerCapFails : AmdDevice :=
  { amdDeviceAllOk with write_power_cap := fun _ => some "Permission denied" }

/-- A `GpuConfig` with balanced power mode and an explicit 250 W power
limit, no fan curve. -/
def cfgBalancedWithLimit : GpuConfig :=
  { cfgBalancedWithFan with power_limit := some 250, fan_curve := none }

/-- Monitor histories with four high-utilization points on device 0. -/
def histFixture : Nat → List MetricsPoint := fun i =>
  if i = 0 then
    [pointFixture 800 60 200 97, pointFixture 850 61 200 98,
     pointFixture 900 62 200 99, pointFixture 950 63 200 100]
  else []

/-- A cached device list with an NVIDIA device at index 0 and an AMD device
at index 1. -/
def gpusFixture : List GpuStatus :=
  [statusFixture 0 .nvidia 60 200 300 0 8589934592 50,
   statusFixture 1 .amd 60 200 300 0 8589934592 50]

/-- A backend registry holding the NVIDIA and AMD backends. -/
def backendsFixture : GpuVendor → Option BackendSwitch := fun v =>
  match v with
  | .nvidia => some nvidiaSwitch
  | .amd => some amdSwitch
  | .intel => none
  | .unknown => none

-- ===========================================================================
-- Fan-curve lemmas
-- ===========================================================================

namespace FanCurve

theorem interp_at_left (p q : Nat × Nat) : interp p q p.1 = p.2 := by
  simp [interp]

theorem interp_at_right (p q : Nat × Nat) (ht : p.1 < q.1) (hs : p.2 ≤ q.2) :
    interp p q q.1 = q.2 := by
  unfold interp
  rw [Nat.mul_div_cancel _ (by omega : 0 < q.1 - p.1)]
  omega

theorem interp_ge_left (p q : Nat × Nat) (t : Nat) : p.2 ≤ interp p q t := by
  simp [interp]

theorem interp_le_right (p q : Nat × Nat) (t : Nat) (ht : p.1 < q.1)
    (htq : t ≤ q.1) (hs : p.2 ≤ q.2) : interp p q t ≤ q.2 := by
  unfold interp
  have h1 : (q.2 - p.2) * (t - p.1) ≤ (q.2 - p.2) * (q.1 - p.1) :=
    Nat.mul_le_mul_left _ (by omega)
  have h2 : (q.2 - p.2) * (t - p.1) / (q.1 - p.1) ≤
      (q.2 - p.2) * (q.1 - p.1) / (q.1 - p.1) :=
    Nat.div_le_div_right h1
  rw [Nat.mul_div_cancel _ (by omega : 0 < q.1 - p.1)] at h2
  omega

theorem interp_mono (p q : Nat × Nat) (t t' : Nat) (htt : t ≤ t') :
    interp p q t ≤ interp p q t' := by
  unfold interp
  have : (q.2 - p.2) * (t - p.1) ≤ (q.2 - p.2) * (t' - p.1) :=
    Nat.mul_le_mul_left _ (by omega)
  exact Nat.add_le_add_left (Nat.div_le_div_right this) _

theorem scanWindows_none_of_all_lt (pts : List (Nat × Nat)) (t : Nat)
    (h : ∀ x ∈ pts, x.1 < t) : scanWindows pts t = none := by
  induction pts with
  | nil => rfl
  | cons p rest ih =>
      match rest with
      | [] => rfl
      | q :: rest' =>
          have hq : q.1 < t := h q (by simp)
          simp only [scanWindows]
          rw [if_neg (by omega)]
          exact ih (fun x hx => h x (by simp [hx]))

theorem scanWindows_none_of_lt_head (p : Nat × Nat) (rest : List (Nat × Nat))
    (t : Nat) (hch : List.Chain' (fun a b : Nat × Nat => a.1 < b.1) (p :: rest))
    (ht : t < p.1) : scanWindows (p :: rest) t = none := by
  induction rest generalizing p with
  | nil => rfl
  | cons q rest' ih =>
      have hpq : p.1 < q.1 := (List.chain'_cons.mp hch).1
      simp only [scanWindows]
      rw [if_neg (by omega)]
      exact ih q (List.chain'_cons.mp hch).2 (by omega)

theorem chain'_head_lt_mem (p : Nat × Nat) (rest : List (Nat × Nat))
    (hch : List.Chain' (fun a b : Nat × Nat => a.1 < b.1) (p :: rest))
    (x : Nat × Nat) (hx : x ∈ rest) : p.1 < x.1 := by
  induction rest generalizing p with
  | nil => cases hx
  | cons q rest' ih =>
      have hpq : p.1 < q.1 := (List.chain'_cons.mp hch).1
      rcases List.mem_cons.mp hx with h | h
      · subst h; exact hpq
      · exact lt_trans hpq (ih q (List.chain'_cons.mp hch).2 h)

theorem chain'_mem_le_getLast (l : List (Nat × Nat)) (hl : l ≠ [])
    (hch : List.Chain' (fun a b : Nat × Nat => a.1 < b.1) l)
    (x : Nat × Nat) (hx : x ∈ l) : x.1 ≤ (l.getLast hl).1 := by
  induction l with
  | nil => cases hx
  | cons p rest ih =>
      match rest with
      | [] =>
          simp only [List.getLast_singleton]
          rcases List.mem_singleton.mp hx with h
          simp [h]
      | q :: rest' =>
          rw [List.getLast_cons (by simp)]
          rcases List.mem_cons.mp hx with h | h
          · subst h
            have := chain'_head_lt_mem x (q :: rest') hch
              ((q :: rest').getLast (by simp)) (List.getLast_mem _)
            omega
          · exact ih (by simp) (List.chain'_cons.mp hch).2 h

/-- Below the first control point the curve yields the first point's speed. -/
theorem calculate_below (p : Nat × Nat) (rest : List (Nat × Nat)) (t : Nat)
    (hch : List.Chain' (fun a b : Nat × Nat => a.1 < b.1) (p :: rest))
    (ht : t < p.1) : calculate_fan_speed ⟨p :: rest⟩ t = p.2 := by
  simp only [calculate_fan_speed]
  rw [scanWindows_none_of_lt_head p rest t hch ht]
  simp [ht]

/-- Above the last control point the curve yields the last point's speed. -/
theorem calculate_above (p : Nat × Nat) (rest : List (Nat × Nat)) (t : Nat)
    (hch : List.Chain' (fun a b : Nat × Nat => a.1 < b.1) (p :: rest))
    (ht : ((p :: rest).getLast (by simp)).1 < t) :
    calculate_fan_speed ⟨p :: rest⟩ t = ((p :: rest).getLast (by simp)).2 := by
  have hall : ∀ x ∈ p :: rest, x.1 < t := by
    intro x hx
    have := chain'_mem_le_getLast (p :: rest) (by simp) hch x hx
    omega
  have hp : p.1 < t := hall p (by simp)
  have hnt : ¬ t < p.1 := by omega
  simp only [calculate_fan_speed]
  rw [scanWindows_none_of_all_lt _ t hall]
  simp [hnt]

/-- When the window scan finds a bracketing pair, `calculate_fan_speed`
returns its value. -/
theorem calculate_of_scan_some (pts : List (Nat × Nat)) (t s : Nat)
    (hs : scanWindows pts t = some s) : calculate_fan_speed ⟨pts⟩ t = s := by
  match pts with
  | [] => exact Option.noConfusion hs
  | p :: rest => simp [calculate_fan_speed, hs]

/-- For a curve with strictly ascending temperatures and non-decreasing
speeds, the window scan returns the interpolation of any bracketing pair of
consecutive control points. -/
theorem scanWindows_bracket (l₁ l₂ : List (Nat × Nat)) (p q : Nat × Nat) (t : Nat)
    (hch : List.Chain' (fun a b : Nat × Nat => a.1 < b.1) (l₁ ++ p :: q :: l₂))
    (hsp : List.Chain' (fun a b : Nat × Nat => a.2 ≤ b.2) (l₁ ++ p :: q :: l₂))
    (hpt : p.1 ≤ t) (htq : t ≤ q.1) :
    scanWindows (l₁ ++ p :: q :: l₂) t = some (interp p q t) := by
  induction l₁ with
  | nil =>
      simp only [List.nil_append, scanWindows]
      rw [if_pos ⟨hpt, htq⟩]
  | cons a l₁' ih =>
      cases l₁' with
      | nil =>
          simp only [List.nil_append, List.cons_append] at hch hsp ⊢
          have hap : a.1 < p.1 := (List.chain'_cons.mp hch).1
          have hap2 : a.2 ≤ p.2 := (List.chain'_cons.mp hsp).1
          simp only [scanWindows]
          by_cases hc : a.1 ≤ t ∧ t ≤ p.1
          · have htp : t = p.1 := le_antisymm hc.2 hpt
            rw [if_pos hc]
            subst htp
            rw [interp_at_left, interp_at_right a p hap hap2]
          · rw [if_neg hc, if_pos ⟨hpt, htq⟩]
      | cons b l₁'' =>
          simp only [List.cons_append] at hch hsp ⊢
          have hbp : b.1 < p.1 :=
            chain'_head_lt_mem b (l₁'' ++ p :: q :: l₂)
              (List.chain'_cons.mp hch).2 p (by simp)
          simp only [scanWindows]
          rw [if_neg (by omega)]
          exact ih (List.chain'_cons.mp hch).2 (List.chain'_cons.mp hsp).2

/-- Dropping the first control point does not change the computed speed for
temperatures beyond the second control point. -/
theorem calculate_cons_of_gt (p q : Nat × Nat) (rest : List (Nat × Nat)) (t : Nat)
    (hch : List.Chain' (fun a b : Nat × Nat => a.1 < b.1) (p :: q :: rest))
    (ht : q.1 < t) :
    calculate_fan_speed ⟨p :: q :: rest⟩ t = calculate_fan_speed ⟨q :: rest⟩ t := by
  have hpq : p.1 < q.1 := (List.chain'_cons.mp hch).1
  simp only [calculate_fan_speed, scanWindows]
  rw [if_neg (by omega : ¬ (p.1 ≤ t ∧ t ≤ q.1))]
  cases hscan : scanWindows (q :: rest) t with
  | some s => simp
  | none =>
      simp only
      rw [List.getLast_cons (by simp : q :: rest ≠ [])]
      rw [if_neg (by omega : ¬ t < p.1), if_neg (by omega : ¬ t < q.1)]

/-- The computed speed never drops below the first control point's speed
(strictly ascending temperatures, non-decreasing speeds). -/
theorem head_le_calculate (rest : List (Nat × Nat)) (p : Nat × Nat) (t : Nat)
    (hch : List.Chain' (fun a b : Nat × Nat => a.1 < b.1) (p :: rest))
    (hsp : List.Chain' (fun a b : Nat × Nat => a.2 ≤ b.2) (p :: rest)) :
    p.2 ≤ calculate_fan_speed ⟨p :: rest⟩ t := by
  induction rest generalizing p with
  | nil =>
      simp only [calculate_fan_speed, scanWindows]
      split <;> simp
  | cons q rest' ih =>
      have hpq : p.1 < q.1 := (List.chain'_cons.mp hch).1
      have hpq2 : p.2 ≤ q.2 := (List.chain'_cons.mp hsp).1
      by_cases hw : p.1 ≤ t ∧ t ≤ q.1
      · have : calculate_fan_speed ⟨p :: q :: rest'⟩ t = interp p q t := by
          simp only [calculate_fan_speed, scanWindows]
          rw [if_pos hw]
        rw [this]
        exact interp_ge_left p q t
      · by_cases hgt : q.1 < t
        · rw [calculate_cons_of_gt p q rest' t hch hgt]
          have := ih q (List.chain'_cons.mp hch).2 (List.chain'_cons.mp hsp).2
          omega
        · have hlt : t < p.1 := by omega
          rw [calculate_below p (q :: rest') t hch hlt]

/-- Monotonicity of `calculate_fan_speed` in the temperature, for strictly
ascending temperatures and non-decreasing speeds. -/
theorem calculate_mono_aux :
    ∀ pts : List (Nat × Nat),
      List.Chain' (fun a b : Nat × Nat => a.1 < b.1) pts →
      List.Chain' (fun a b : Nat × Nat => a.2 ≤ b.2) pts →
      ∀ t t' : Nat, t ≤ t' →
        calculate_fan_speed ⟨pts⟩ t ≤ calculate_fan_speed ⟨pts⟩ t' := by
  intro pts
  induction pts with
  | nil => intro _ _ t t' _; simp [calculate_fan_speed]
  | cons p rest ih =>
      intro hch hsp t t' htt
      match rest with
      | [] =>
          simp only [calculate_fan_speed, scanWindows]
          split <;> split <;> simp
      | q :: rest' =>
          have hpq : p.1 < q.1 := (List.chain'_cons.mp hch).1
          have hpq2 : p.2 ≤ q.2 := (List.chain'_cons.mp hsp).1
          by_cases hlt : t < p.1
          · rw [calculate_below p (q :: rest') t hch hlt]
            exact head_le_calculate (q :: rest') p t' hch hsp
          · by_cases hq : t ≤ q.1
            · have hwin : calculate_fan_speed ⟨p :: q :: rest'⟩ t = interp p q t := by
                simp only [calculate_fan_speed, scanWindows]
                rw [if_pos ⟨by omega, hq⟩]
              rw [hwin]
              by_cases hq' : t' ≤ q.1
              · have hwin' : calculate_fan_speed ⟨p :: q :: rest'⟩ t' = interp p q t' := by
                  simp only [calculate_fan_speed, scanWindows]
                  rw [if_pos ⟨by omega, hq'⟩]
                rw [hwin']
                exact interp_mono p q t t' htt
              · rw [calculate_cons_of_gt p q rest' t' hch (by omega)]
                have h1 : interp p q t ≤ q.2 :=
                  interp_le_right p q t hpq hq hpq2
                have h2 := head_le_calculate rest' q t'
                  (List.chain'_cons.mp hch).2 (List.chain'_cons.mp hsp).2
                omega
            · rw [calculate_cons_of_gt p q rest' t hch (by omega),
                calculate_cons_of_gt p q rest' t' hch (by omega)]
              exact ih (List.chain'_cons.mp hch).2 (List.chain'_cons.mp hsp).2 t t' htt

end FanCurve

-- ===========================================================================
-- Claim C3: fan-curve calculation
-- ===========================================================================

/-- C3 (amended): `calculate_fan_speed` returns 50 for an empty curve; for a
curve with strictly ascending temperatures it returns the first point's
speed below the first point and the last point's speed above the last
point; on a bracketing segment it returns
`speed1 + (speed2-speed1)*(t-t1)/(t2-t1)` truncated to an integer provided
the speeds are non-decreasing (for a decreasing segment the Rust
`f32 → u32` cast saturates the negative offset to zero instead); and the
five concrete values on the curve `[(30,20),(50,40),(70,60),(85,100)]`
hold as stated. -/
theorem C3_calculate_fan_speed_characterization :
    (∀ t, FanCurve.calculate_fan_speed ⟨[]⟩ t = 50) ∧
    (∀ (p : Nat × Nat) (rest : List (Nat × Nat)) (t : Nat),
        List.Chain' (fun a b : Nat × Nat => a.1 < b.1) (p :: rest) →
        t < p.1 → FanCurve.calculate_fan_speed ⟨p :: rest⟩ t = p.2) ∧
    (∀ (p : Nat × Nat) (rest : List (Nat × Nat)) (t : Nat),
        List.Chain' (fun a b : Nat × Nat => a.1 < b.1) (p :: rest) →
        ((p :: rest).getLast (by simp)).1 < t →
        FanCurve.calculate_fan_speed ⟨p :: rest⟩ t =
          ((p :: rest).getLast (by simp)).2) ∧
    (∀ (l₁ l₂ : List (Nat × Nat)) (p q : Nat × Nat) (t : Nat),
        List.Chain' (fun a b : Nat × Nat => a.1 < b.1) (l₁ ++ p :: q :: l₂) →
        List.Chain' (fun a b : Nat × Nat => a.2 ≤ b.2) (l₁ ++ p :: q :: l₂) →
        p.1 ≤ t → t ≤ q.1 →
        FanCurve.calculate_fan_speed ⟨l₁ ++ p :: q :: l₂⟩ t =
          p.2 + (q.2 - p.2) * (t - p.1) / (q.1 - p.1)) ∧
    (FanCurve.calculate_fan_speed FanCurve.aggressive 30 = 20 ∧
      FanCurve.calculate_fan_speed FanCurve.aggressive 85 = 100 ∧
      FanCurve.calculate_fan_speed FanCurve.aggressive 60 = 50 ∧
      FanCurve.calculate_fan_speed FanCurve.aggressive 25 = 20 ∧
      FanCurve.calculate_fan_speed FanCurve.aggressive 90 = 100) := by
  refine ⟨fun t => rfl, FanCurve.calculate_below, FanCurve.calculate_above,
    ?_, by decide⟩
  intro l₁ l₂ p q t hch hsp hpt htq
  exact FanCurve.calculate_of_scan_some _ _ _
    (FanCurve.scanWindows_bracket l₁ l₂ p q t hch hsp hpt htq)

/-- C3 witness: the below-the-curve clamp of the amended theorem applied to
the aggressive curve at 25 °C. -/
theorem C3_witness :
    FanCurve.calculate_fan_speed ⟨[(30, 20), (50, 40), (70, 60), (85, 100)]⟩ 25 = 20 :=
  C3_calculate_fan_speed_characterization.2.1 (30, 20)
    [(50, 40), (70, 60), (85, 100)] 25 (by simp [List.chain'_cons]) (by decide)

/-- C3 counterexample: on the temperature-sorted curve `[(30,50),(50,20)]`
at 50 °C the code returns 50 — the Rust `f32 → u32` cast saturates the
negative offset `(20-50)*(50-30)/(50-30) = -30` to zero — while the claim's
formula `speed1 + (speed2-speed1)*(t-t1)/(t2-t1)` yields 20. -/
theorem C3_counterexample :
    FanCurve.calculate_fan_speed ⟨[(30, 50), (50, 20)]⟩ 50 = 50 ∧
    interpSpecFormula (30, 50) (50, 20) 50 = 20 ∧
    (50 : Nat) ≠ 20 := by decide

-- ===========================================================================
-- Claim C7: fan-curve monotonicity
-- ===========================================================================

/-- C7: for every fan curve whose control points are sorted strictly
ascending by temperature (the `FanCurve` invariant) with non-decreasing
speeds, `calculate_fan_speed` is non-decreasing in the temperature. -/
theorem C7_calculate_fan_speed_monotone (c : FanCurve)
    (hch : List.Chain' (fun a b : Nat × Nat => a.1 < b.1) c.points)
    (hsp : List.Chain' (fun a b : Nat × Nat => a.2 ≤ b.2) c.points)
    (t t' : Nat) (htt : t ≤ t') :
    c.calculate_fan_speed t ≤ c.calculate_fan_speed t' := by
  obtain ⟨pts⟩ := c
  exact FanCurve.calculate_mono_aux pts hch hsp t t' htt

/-- C7 witness: monotonicity applied to the quiet curve at 55 °C vs 83 °C. -/
theorem C7_witness :
    FanCurve.calculate_fan_speed FanCurve.quiet 55 ≤
      FanCurve.calculate_fan_speed FanCurve.quiet 83 :=
  C7_calculate_fan_speed_monotone FanCurve.quiet
    (by simp [FanCurve.quiet, List.chain'_cons]) (by simp [FanCurve.quiet, List.chain'_cons])
    55 83 (by decide)

-- ===========================================================================
-- Claim C2: bounded metrics history
-- ===========================================================================

theorem trimToCap_eq_drop (cap : Nat) (l : List MetricsPoint) :
    trimToCap cap l = l.drop (l.length - cap) := by
  induction l with
  | nil => simp [trimToCap]
  | cons p rest ih =>
      simp only [trimToCap, List.length_cons]
      by_cases h : rest.length + 1 > cap
      · rw [if_pos h, ih]
        have heq : rest.length + 1 - cap = (rest.length - cap) + 1 := by omega
        rw [heq, List.drop_succ_cons]
      · rw [if_neg h]
        have heq : rest.length + 1 - cap = 0 := by omega
        rw [heq, List.drop_zero]

/-- Folding appends-then-trim over a point sequence keeps exactly the
trailing `cap` points of initial history plus insertions. -/
theorem foldl_append_trim (cap : Nat) (pts : List MetricsPoint) :
    ∀ h : List MetricsPoint, h.length ≤ cap →
      pts.foldl (fun acc p => trimToCap cap (acc ++ [p])) h =
        (h ++ pts).drop ((h ++ pts).length - cap) := by
  induction pts with
  | nil =>
      intro h hle
      simp only [List.foldl_nil, List.append_nil]
      rw [Nat.sub_eq_zero_of_le hle, List.drop_zero]
  | cons p pts ih =>
      intro h hle
      simp only [List.foldl_cons]
      have hh' : trimToCap cap (h ++ [p]) =
          (h ++ [p]).drop ((h ++ [p]).length - cap) := trimToCap_eq_drop cap _
      have hlen' : (trimToCap cap (h ++ [p])).length ≤ cap := by
        rw [hh', List.length_drop]
        omega
      rw [ih _ hlen', hh']
      have hd : (h ++ [p]).length - cap ≤ (h ++ [p]).length := by omega
      rw [← List.drop_append_of_le_length hd, List.drop_drop]
      have hassoc : h ++ [p] ++ pts = h ++ p :: pts := by
        simp
      rw [hassoc]
      congr 1
      simp only [List.length_drop, List.length_append, List.length_cons,
        List.length_nil]
      omega

/-- Evaluating a folded sequence of `record_metrics` calls at one device
index reduces to folding that device's own insertions over its history. -/
theorem foldl_recordStep_apply (cfg : AlertConfig)
    (calls : List (Nat × GpuStatus × Nat)) :
    ∀ (m : Nat → List MetricsPoint) (i : Nat),
      (calls.foldl (recordStep cfg) m) i =
        ((calls.filter (fun c => c.1 = i)).map
            (fun c => MetricsPoint.ofStatus c.2.1 c.2.2)).foldl
          (fun acc p => trimToCap max_history_length (acc ++ [p])) (m i) := by
  induction calls with
  | nil => intro m i; simp
  | cons c calls ih =>
      intro m i
      simp only [List.foldl_cons]
      rw [ih]
      by_cases h : c.1 = i
      · rw [List.filter_cons_of_pos (by simpa using h)]
        simp only [List.map_cons, List.foldl_cons]
        have hstep : recordStep cfg m c i =
            trimToCap max_history_length (m i ++ [MetricsPoint.ofStatus c.2.1 c.2.2]) := by
          simp [recordStep, record_metrics, h]
        rw [hstep]
      · rw [List.filter_cons_of_neg (by simpa using h)]
        have hstep : recordStep cfg m c i = m i := by
          simp only [recordStep, record_metrics]
          rw [if_neg (fun hq => h hq.symm)]
        rw [hstep]

/-- C2: starting from a fresh monitor, after any sequence of
`record_metrics` calls every device's history holds at most
`max_history_length` (1440) points, and it is exactly the suffix of that
device's inserted points of length at most 1440 — the most recent
insertions, in arrival order. -/
theorem C2_metrics_history_bounded (cfg : AlertConfig)
    (calls : List (Nat × GpuStatus × Nat)) (i : Nat) :
    ((calls.foldl (recordStep cfg) (fun _ => [])) i).length ≤ max_history_length ∧
      (calls.foldl (recordStep cfg) (fun _ => [])) i =
        (((calls.filter (fun c => c.1 = i)).map
            (fun c => MetricsPoint.ofStatus c.2.1 c.2.2)).drop
          (((calls.filter (fun c => c.1 = i)).map
              (fun c => MetricsPoint.ofStatus c.2.1 c.2.2)).length -
            max_history_length)) := by
  have h1 := foldl_recordStep_apply cfg calls (fun _ => []) i
  have h2 := foldl_append_trim max_history_length
    ((calls.filter (fun c => c.1 = i)).map (fun c => MetricsPoint.ofStatus c.2.1 c.2.2))
    [] (by simp)
  simp only [List.nil_append] at h2
  refine ⟨?_, by rw [h1, h2]⟩
  rw [h1, h2, List.length_drop]
  omega

-- ===========================================================================
-- Alert-block membership lemmas
-- ===========================================================================

theorem mem_thermal_alert_events (cfg : AlertConfig) (gpu_index : Nat)
    (status : GpuStatus) (e : GpuEvent)
    (he : e ∈ thermal_alert_events cfg gpu_index status) :
    ∃ a b c, e = .temperatureAlert a b c := by
  unfold thermal_alert_events at he
  split_ifs at he <;> simp_all

theorem mem_memory_alert_events (cfg : AlertConfig) (gpu_index : Nat)
    (status : GpuStatus) (e : GpuEvent)
    (he : e ∈ memory_alert_events cfg gpu_index status) :
    ∃ a b c, e = .vramAlert a b c := by
  unfold memory_alert_events at he
  split_ifs at he <;> simp_all

theorem mem_power_alert_events (cfg : AlertConfig) (gpu_index : Nat)
    (status : GpuStatus) (e : GpuEvent)
    (he : e ∈ power_alert_events cfg gpu_index status) :
    ∃ a b c, e = .powerAlert a b c := by
  unfold power_alert_events at he
  split_ifs at he <;> simp_all

theorem mem_check_sustained (cfg : AlertConfig) (gpu_index : Nat)
    (history : List MetricsPoint) (now : Nat) (status : GpuStatus) (e : GpuEvent)
    (he : e ∈ check_sustained_utilization_alert cfg gpu_index history now status) :
    ∃ a b c, e = .performanceDegraded a b c := by
  simp only [check_sustained_utilization_alert] at he
  split_ifs at he <;> simp_all

theorem mem_power_alert_events_iff (cfg : AlertConfig) (gpu_index : Nat)
    (status : GpuStatus) :
    GpuEvent.powerAlert gpu_index status.power_draw status.power_limit ∈
        power_alert_events cfg gpu_index status ↔
      cfg.enable_power_alerts = true ∧
        cfg.power_usage_warning ≤
          status.power_draw * 100 / max status.power_limit 1 := by
  unfold power_alert_events
  split_ifs with h1 h2 <;> simp_all

theorem mem_memory_alert_events_iff (cfg : AlertConfig) (gpu_index : Nat)
    (status : GpuStatus) :
    GpuEvent.vramAlert gpu_index
        (status.memory_used * 100 / max status.memory_total 1)
        cfg.memory_usage_warning ∈
        memory_alert_events cfg gpu_index status ↔
      cfg.enable_memory_alerts = true ∧
        cfg.memory_usage_warning ≤
          status.memory_used * 100 / max status.memory_total 1 := by
  unfold memory_alert_events
  split_ifs with h1 h2 <;> simp_all

/-- The sustained-utilization block fires some `PerformanceDegraded` event
for the device exactly when the history has at least 5 points and every
point of the tail back to the duration cutoff meets the threshold. -/
theorem check_sustained_fires_iff (cfg : AlertConfig) (gpu_index : Nat)
    (history : List MetricsPoint) (now : Nat) (status : GpuStatus) :
    (∃ es as, GpuEvent.performanceDegraded gpu_index es as ∈
        check_sustained_utilization_alert cfg gpu_index history now status) ↔
      (5 ≤ history.length ∧
        ∀ p ∈ history.reverse.takeWhile
            (fun point => point.timestamp ≥
              now - cfg.utilization_sustained_duration),
          cfg.utilization_sustained_threshold ≤ p.utilization_gpu) := by
  simp only [check_sustained_utilization_alert]
  split_ifs with hc
  · simp only [List.mem_singleton]
    constructor
    · rintro ⟨es, as, -⟩
      refine ⟨hc.2, fun p hp => ?_⟩
      have hall := hc.1
      rw [List.all_eq_true] at hall
      simpa using hall p hp
    · intro _
      exact ⟨7 / 10, (status.utilization_gpu : ℚ) / 100, rfl⟩
  · constructor
    · rintro ⟨_, _, h⟩
      exact absurd h (List.not_mem_nil _)
    · rintro ⟨hlen, hall⟩
      exact absurd ⟨by rw [List.all_eq_true]; intro p hp; simpa using hall p hp,
        hlen⟩ hc

-- ===========================================================================
-- Claim C10: alert evaluation is total on degenerate statuses
-- ===========================================================================

/-- C10: the power-usage percentage divides by `max(power_limit, 1)` and the
memory-usage percentage by `max(memory_total, 1)`, so both divisors are
positive for every status — including `power_limit = 0` or
`memory_total = 0` — and the power / VRAM alerts fire exactly when those
percentages reach their thresholds with the category enabled. -/
theorem C10_check_alerts_divisors (cfg : AlertConfig) (gpu_index : Nat)
    (history : List MetricsPoint) (now : Nat) (status : GpuStatus) :
    0 < max status.power_limit 1 ∧ 0 < max status.memory_total 1 ∧
    (GpuEvent.powerAlert gpu_index status.power_draw status.power_limit ∈
        check_alerts cfg gpu_index history now status ↔
      cfg.enable_power_alerts = true ∧
        cfg.power_usage_warning ≤
          status.power_draw * 100 / max status.power_limit 1) ∧
    (GpuEvent.vramAlert gpu_index
          (status.memory_used * 100 / max status.memory_total 1)
          cfg.memory_usage_warning ∈
        check_alerts cfg gpu_index history now status ↔
      cfg.enable_memory_alerts = true ∧
        cfg.memory_usage_warning ≤
          status.memory_used * 100 / max status.memory_total 1) := by
  refine ⟨lt_of_lt_of_le Nat.one_pos (le_max_right _ _),
    lt_of_lt_of_le Nat.one_pos (le_max_right _ _), ?_, ?_⟩
  · constructor
    · intro h
      simp only [check_alerts, List.mem_append] at h
      rcases h with ((h | h) | h) | h
      · obtain ⟨a, b, c, hh⟩ := mem_thermal_alert_events _ _ _ _ h
        exact GpuEvent.noConfusion hh
      · exact (mem_power_alert_events_iff cfg gpu_index status).mp h
      · obtain ⟨a, b, c, hh⟩ := mem_memory_alert_events _ _ _ _ h
        exact GpuEvent.noConfusion hh
      · revert h
        split_ifs <;> intro h
        · obtain ⟨a, b, c, hh⟩ := mem_check_sustained _ _ _ _ _ _ h
          exact GpuEvent.noConfusion hh
        · exact absurd h (List.not_mem_nil _)
    · intro hcond
      simp only [check_alerts, List.mem_append]
      exact Or.inl (Or.inl (Or.inr
        ((mem_power_alert_events_iff cfg gpu_index status).mpr hcond)))
  · constructor
    · intro h
      simp only [check_alerts, List.mem_append] at h
      rcases h with ((h | h) | h) | h
      · obtain ⟨a, b, c, hh⟩ := mem_thermal_alert_events _ _ _ _ h
        exact GpuEvent.noConfusion hh
      · obtain ⟨a, b, c, hh⟩ := mem_power_alert_events _ _ _ _ h
        exact GpuEvent.noConfusion hh
      · exact (mem_memory_alert_events_iff cfg gpu_index status).mp h
      · revert h
        split_ifs <;> intro h
        · obtain ⟨a, b, c, hh⟩ := mem_check_sustained _ _ _ _ _ _ h
          exact GpuEvent.noConfusion hh
        · exact absurd h (List.not_mem_nil _)
    · intro hcond
      simp only [check_alerts, List.mem_append]
      exact Or.inl (Or.inr
        ((mem_memory_alert_events_iff cfg gpu_index status).mpr hcond))

-- ===========================================================================
-- Claim C5: sustained-utilization alert
-- ===========================================================================

/-- C5: with performance alerts enabled (and a sustained duration not
exceeding the wall clock), `record_metrics` emits a `PerformanceDegraded`
event exactly when the device's new history holds at least 5 retained
points and every point in the tail of history back to the duration cutoff
is at or above the sustained-utilization threshold. -/
theorem C5_sustained_utilization_alert (cfg : AlertConfig)
    (histories : Nat → List MetricsPoint) (gpu_index : Nat)
    (status : GpuStatus) (now : Nat)
    (hperf : cfg.enable_performance_alerts = true)
    (hdur : cfg.utilization_sustained_duration ≤ now) :
    ((∃ es as, GpuEvent.performanceDegraded gpu_index es as ∈
        (record_metrics cfg histories gpu_index status now).2) ↔
      (5 ≤ (trimToCap max_history_length
              (histories gpu_index ++ [MetricsPoint.ofStatus status now])).length ∧
        ∀ p ∈ (trimToCap max_history_length
                (histories gpu_index ++
                  [MetricsPoint.ofStatus status now])).reverse.takeWhile
              (fun point => point.timestamp ≥
                now - cfg.utilization_sustained_duration),
          cfg.utilization_sustained_threshold ≤ p.utilization_gpu)) := by
  simp only [record_metrics]
  rw [← check_sustained_fires_iff cfg gpu_index
    (trimToCap max_history_length
      (histories gpu_index ++ [MetricsPoint.ofStatus status now])) now status]
  constructor
  · rintro ⟨es, as, h⟩
    simp only [check_alerts, List.mem_append] at h
    rcases h with ((h | h) | h) | h
    · obtain ⟨a, b, c, hh⟩ := mem_thermal_alert_events _ _ _ _ h
      exact GpuEvent.noConfusion hh
    · obtain ⟨a, b, c, hh⟩ := mem_power_alert_events _ _ _ _ h
      exact GpuEvent.noConfusion hh
    · obtain ⟨a, b, c, hh⟩ := mem_memory_alert_events _ _ _ _ h
      exact GpuEvent.noConfusion hh
    · rw [if_pos hperf] at h
      exact ⟨es, as, h⟩
  · rintro ⟨es, as, h⟩
    refine ⟨es, as, ?_⟩
    simp only [check_alerts, List.mem_append]
    refine Or.inr ?_
    rw [if_pos hperf]
    exact h

-- ===========================================================================
-- Claim C6: efficiency scores lie in [0,1]
-- ===========================================================================

/-- C6: the monitor's efficiency score — the average of `utilization/100`,
`(100 − min(temperature,100))/100` and `(300 − min(power_draw,300))/300`
over the window's per-point averages — lies in [0,1] for every non-empty
window whose points have utilization at most 100; and the library-level
`calculate_efficiency_score` lies in [0,1] on the property-test ranges
power_draw ∈ [50,400), power_limit ∈ [400,500), temperature ∈ [30,90),
utilization ∈ [0,100). -/
theorem C6_efficiency_score_bounds :
    (∀ metrics : List MetricsPoint, metrics ≠ [] →
        (∀ p ∈ metrics, p.utilization_gpu ≤ 100) →
        0 ≤ monitor_efficiency_score metrics ∧
          monitor_efficiency_score metrics ≤ 1) ∧
    (∀ status : GpuStatus,
        50 ≤ status.power_draw → status.power_draw < 400 →
        400 ≤ status.power_limit → status.power_limit < 500 →
        30 ≤ status.temperature → status.temperature < 90 →
        status.utilization_gpu < 100 →
        0 ≤ calculate_efficiency_score status ∧
          calculate_efficiency_score status ≤ 1) := by
  constructor
  · intro metrics hne hutil
    simp only [monitor_efficiency_score, if_neg hne]
    have hnpos : (0 : ℚ) < (metrics.length : ℚ) := by
      exact_mod_cast List.length_pos.mpr hne
    have hNsum : (metrics.map (fun m => m.utilization_gpu)).sum ≤
        metrics.length * 100 := by
      have := List.sum_le_card_nsmul (metrics.map (fun m => m.utilization_gpu))
        100 (fun x hx => by
          obtain ⟨p, hp, rfl⟩ := List.mem_map.mp hx
          exact hutil p hp)
      simpa [smul_eq_mul] using this
    have hU0 : (0 : ℚ) ≤
        (((metrics.map (fun m => m.utilization_gpu)).sum : Nat) : ℚ) /
          (metrics.length : ℚ) :=
      div_nonneg (Nat.cast_nonneg _) hnpos.le
    have hU1 : (((metrics.map (fun m => m.utilization_gpu)).sum : Nat) : ℚ) /
        (metrics.length : ℚ) ≤ 100 := by
      rw [div_le_iff₀ hnpos]
      calc (((metrics.map (fun m => m.utilization_gpu)).sum : Nat) : ℚ)
          ≤ ((metrics.length * 100 : Nat) : ℚ) := by exact_mod_cast hNsum
        _ = 100 * (metrics.length : ℚ) := by push_cast; ring
    have hT0 : (0 : ℚ) ≤
        (((metrics.map (fun m => m.temperature)).sum : Nat) : ℚ) /
          (metrics.length : ℚ) :=
      div_nonneg (Nat.cast_nonneg _) hnpos.le
    have hP0 : (0 : ℚ) ≤
        (((metrics.map (fun m => m.power_draw)).sum : Nat) : ℚ) /
          (metrics.length : ℚ) :=
      div_nonneg (Nat.cast_nonneg _) hnpos.le
    have h2r := min_le_right
      ((((metrics.map (fun m => m.temperature)).sum : Nat) : ℚ) /
        (metrics.length : ℚ)) (100 : ℚ)
    have h3r := min_le_right
      ((((metrics.map (fun m => m.power_draw)).sum : Nat) : ℚ) /
        (metrics.length : ℚ)) (300 : ℚ)
    have h2l : (0 : ℚ) ≤ min
        ((((metrics.map (fun m => m.temperature)).sum : Nat) : ℚ) /
          (metrics.length : ℚ)) 100 := le_min hT0 (by norm_num)
    have h3l : (0 : ℚ) ≤ min
        ((((metrics.map (fun m => m.power_draw)).sum : Nat) : ℚ) /
          (metrics.length : ℚ)) 300 := le_min hP0 (by norm_num)
    constructor <;> [skip; skip] <;> linarith
  · intro status h1 h2 h3 h4 h5 h6 h7
    simp only [calculate_efficiency_score]
    have hplpos : (0 : ℚ) < (status.power_limit : ℚ) := by
      have h0 : 0 < status.power_limit := by omega
      exact_mod_cast h0
    have hr0 : (0 : ℚ) ≤ (status.power_draw : ℚ) / (status.power_limit : ℚ) :=
      div_nonneg (Nat.cast_nonneg _) hplpos.le
    have hr1 : (status.power_draw : ℚ) / (status.power_limit : ℚ) ≤ 1 := by
      rw [div_le_one hplpos]
      have hle : status.power_draw ≤ status.power_limit := by omega
      exact_mod_cast hle
    have ht0 : (0 : ℚ) ≤ min ((status.temperature : ℚ) / 90) 1 :=
      le_min (div_nonneg (Nat.cast_nonneg _) (by norm_num)) (by norm_num)
    have ht1 : min ((status.temperature : ℚ) / 90) 1 ≤ 1 := min_le_right _ _
    have hu0 : (0 : ℚ) ≤ (status.utilization_gpu : ℚ) / 100 :=
      div_nonneg (Nat.cast_nonneg _) (by norm_num)
    have hu1 : (status.utilization_gpu : ℚ) / 100 ≤ 1 := by
      rw [div_le_one (by norm_num : (0:ℚ) < 100)]
      have hle : status.utilization_gpu ≤ 100 := by omega
      exact_mod_cast hle
    constructor <;> linarith

/-- C5 witness: with the default alert configuration, four retained
97-100% points and a fifth 96% sample at time 1000, the sustained alert
fires (every tail point back to the 700-second cutoff is ≥ 95 and five
points are retained). -/
theorem C5_witness :
    ((∃ es as, GpuEvent.performanceDegraded 0 es as ∈
        (record_metrics AlertConfig.default histFixture 0
          (statusFixture 0 .nvidia 60 200 300 0 8589934592 96) 1000).2) ↔
      (5 ≤ (trimToCap max_history_length
              (histFixture 0 ++ [MetricsPoint.ofStatus
                (statusFixture 0 .nvidia 60 200 300 0 8589934592 96) 1000])).length ∧
        ∀ p ∈ (trimToCap max_history_length
                (histFixture 0 ++ [MetricsPoint.ofStatus
                  (statusFixture 0 .nvidia 60 200 300 0 8589934592 96)
                  1000])).reverse.takeWhile
              (fun point => point.timestamp ≥
                1000 - AlertConfig.default.utilization_sustained_duration),
          AlertConfig.default.utilization_sustained_threshold ≤
            p.utilization_gpu)) :=
  C5_sustained_utilization_alert AlertConfig.default histFixture 0
    (statusFixture 0 .nvidia 60 200 300 0 8589934592 96) 1000 rfl (by decide)

/-- C6 witness: the bounds applied to a one-point window and to the
property-test fixture (75 °C, 350 W draw, 450 W limit, 85% utilization). -/
theorem C6_witness :
    (0 ≤ monitor_efficiency_score [pointFixture 1000 60 200 80] ∧
      monitor_efficiency_score [pointFixture 1000 60 200 80] ≤ 1) ∧
    (0 ≤ calculate_efficiency_score
          (statusFixture 0 .nvidia 75 350 450 4294967296 25769803776 85) ∧
      calculate_efficiency_score
          (statusFixture 0 .nvidia 75 350 450 4294967296 25769803776 85) ≤ 1) :=
  ⟨C6_efficiency_score_bounds.1 [pointFixture 1000 60 200 80] (by decide)
      (by decide),
    C6_efficiency_score_bounds.2
      (statusFixture 0 .nvidia 75 350 450 4294967296 25769803776 85)
      (by decide) (by decide) (by decide) (by decide) (by decide) (by decide)
      (by decide)⟩

-- ===========================================================================
-- Claim C9: switch_gpu never emits a GpuSwitched event
-- ===========================================================================

/-- C9: both backend implementations report `supports_gpu_switching` yet
their `switch_gpu` always fails; hence for any manager state whose
registered backends are these implementations, `switch_gpu` emits no event
at all (the error propagates before the event send), and when the source
device's vendor has no registered backend the call returns success without
switching or emitting anything. -/
theorem C9_switch_gpu_no_event (gpus : List GpuStatus)
    (backends : GpuVendor → Option BackendSwitch)
    (from_index to_index : Nat) (reason : String)
    (hbk : ∀ v b, backends v = some b → b = nvidiaSwitch ∨ b = amdSwitch) :
    (nvidiaSwitch.supports_gpu_switching = true ∧
      amdSwitch.supports_gpu_switching = true ∧
      (∀ i j, (nvidiaSwitch.switch_gpu i j).isSome = true) ∧
      (∀ i j, (amdSwitch.switch_gpu i j).isSome = true)) ∧
    (GpuManager.switch_gpu gpus backends from_index to_index reason).1 = [] ∧
    (∀ g g', gpus.find? (fun x => x.index = from_index) = some g →
      gpus.find? (fun x => x.index = to_index) = some g' →
      backends g.vendor = none →
      GpuManager.switch_gpu gpus backends from_index to_index reason =
        ([], none)) := by
  refine ⟨⟨rfl, rfl, fun i j => rfl, fun i j => rfl⟩, ?_, ?_⟩
  · cases hf : gpus.find? (fun g => g.index = from_index) with
    | none => simp [GpuManager.switch_gpu, hf]
    | some fg =>
        cases ht : gpus.find? (fun g => g.index = to_index) with
        | none => simp [GpuManager.switch_gpu, hf, ht]
        | some tg =>
            cases hb : backends fg.vendor with
            | none => simp [GpuManager.switch_gpu, hf, ht, hb]
            | some b =>
                rcases hbk fg.vendor b hb with h | h <;> subst h <;>
                  simp [GpuManager.switch_gpu, hf, ht, hb, nvidiaSwitch, amdSwitch]
  · intro g g' hg hg' hnone
    simp [GpuManager.switch_gpu, hg, hg', hnone]

/-- C9 witness: with the real NVIDIA/AMD backends registered and two cached
devices, a switch request emits no event. -/
theorem C9_witness :
    (GpuManager.switch_gpu gpusFixture backendsFixture 0 1 "load balancing").1 = [] :=
  (C9_switch_gpu_no_event gpusFixture backendsFixture 0 1 "load balancing"
    (fun v b h => by
      cases v with
      | nvidia => exact Or.inl (Option.some.inj h).symm
      | amd => exact Or.inr (Option.some.inj h).symm
      | intel => exact Option.noConfusion h
      | unknown => exact Option.noConfusion h)).2.1

-- ===========================================================================
-- Claim C4: Auto power mode
-- ===========================================================================

/-- C4 (amended): the NVIDIA backend's `Auto` mode reads the instantaneous
utilization once during the apply call and applies max-performance above
80%, power-saver below 20%, balanced otherwise (a failed utilization read
surfaces as an error); the AMD backend instead maps `Auto` directly to the
"auto" performance level — the same write as `Balanced` — without reading
utilization. -/
theorem C4_auto_power_mode (d : NvDevice) (da : AmdDevice) :
    (∀ u, d.utilization_gpu = .ok u →
        NvidiaBackend.apply_power_mode d .auto =
          (if u > 80 then NvidiaBackend.set_max_performance d
            else if u < 20 then NvidiaBackend.set_power_saver d
            else NvidiaBackend.set_balanced d)) ∧
    (∀ e, d.utilization_gpu = .error e →
        NvidiaBackend.apply_power_mode d .auto = ([], some e)) ∧
    AmdBackend.apply_power_mode da .auto = AmdBackend.apply_power_mode da .balanced := by
  refine ⟨?_, ?_, rfl⟩
  · intro u hu
    simp [NvidiaBackend.apply_power_mode, hu]
  · intro e he
    simp [NvidiaBackend.apply_power_mode, he]

/-- C4 witness: on the all-ok NVML device reporting 50% utilization, `Auto`
applies the balanced mode. -/
theorem C4_witness :
    NvidiaBackend.apply_power_mode nvDeviceAllOk .auto =
      NvidiaBackend.set_balanced nvDeviceAllOk := by
  have h := (C4_auto_power_mode nvDeviceAllOk amdDeviceAllOk).1 50 rfl
  simpa using h

/-- C4 counterexample: whatever the AMD device's utilization is, applying
`Auto` writes the "auto" performance level, not the "high" level that
applying `MaxPerformance` writes — so on an AMD device with utilization
above 80 the claim's required MaxPerformance application does not happen. -/
theorem C4_counterexample :
    AmdBackend.apply_power_mode amdDeviceAllOk .auto =
        ([.writePerformanceLevel "auto"], none) ∧
    AmdBackend.apply_power_mode amdDeviceAllOk .maxPerformance =
        ([.writePerformanceLevel "high"], none) ∧
    AmdAction.writePerformanceLevel "auto" ≠ .writePerformanceLevel "high" := by
  refine ⟨rfl, rfl, by decide⟩

-- ===========================================================================
-- Claim C1: apply_config ordering, error surfacing, no rollback
-- ===========================================================================

theorem Step.andThen_ok_left {α : Type} (a b : Step α) (h : a.2 = none) :
    Step.andThen a b = (a.1 ++ b.1, b.2) := by
  obtain ⟨as, e⟩ := a
  cases e with
  | none => rfl
  | some e => exact Option.noConfusion h

theorem Step.andThen_err_left {α : Type} (a b : Step α) (e : GpuError)
    (h : a.2 = some e) :
    Step.andThen a b = (a.1, some e) := by
  obtain ⟨as, e'⟩ := a
  cases e' with
  | none => exact Option.noConfusion h
  | some e' =>
      cases Option.some.inj h
      rfl

theorem nv_fan_step_actions (d : NvDevice) (curve : FanCurve) :
    (NvidiaBackend.apply_fan_curve d curve).1 = [] := by
  unfold NvidiaBackend.apply_fan_curve
  cases d.temperature <;> rfl

theorem nv_fan_step_fails (d : NvDevice) (curve : FanCurve) :
    (NvidiaBackend.apply_fan_curve d curve).2.isSome = true := by
  unfold NvidiaBackend.apply_fan_curve
  cases d.temperature <;> rfl

/-- The fan-and-clock tail of NVIDIA `apply_config` performs no mutation
and never fails: the fan error is swallowed by the `if let Err` and the
clock-offset step is a warn-only no-op. -/
theorem nv_tail_steps (d : NvDevice) (cfg : GpuConfig) :
    Step.andThen
      (match cfg.fan_curve with
        | some curve => ((NvidiaBackend.apply_fan_curve d curve).1, none)
        | none => Step.ok)
      (NvidiaBackend.apply_clock_offsets d cfg.gpu_clock_offset
        cfg.memory_clock_offset) = ([], none) := by
  cases hfc : cfg.fan_curve with
  | none => rfl
  | some curve =>
      simp [Step.andThen, NvidiaBackend.apply_clock_offsets, Step.ok,
        nv_fan_step_actions d curve]

/-- C1 (amended): NVIDIA's `apply_config` runs power mode, then the
optional explicit power limit, then the optional fan curve, then the clock
offsets, in that order.  Power-mode and power-limit failures surface with
the earlier successful mutations retained (no rollback); the fan-curve step
always fails on NVIDIA but its error is logged and swallowed, never
surfaced; the clock-offset step is a no-op that always succeeds.  AMD's
`apply_config` runs power mode, optional power limit, optional fan curve,
in that order, each failure surfacing with earlier mutations retained; AMD
never applies clock offsets. -/
theorem C1_apply_config_best_effort (d : NvDevice) (da : AmdDevice)
    (cfg : GpuConfig) :
    ((∀ curve, (NvidiaBackend.apply_fan_curve d curve).2.isSome = true) ∧
      ((NvidiaBackend.apply_power_mode d cfg.power_mode).2 = none →
        (match cfg.power_limit with
          | some l => NvidiaBackend.setPowerLimitStep d (l * 1000)
          | none => Step.ok).2 = none →
        NvidiaBackend.apply_config d cfg =
          ((NvidiaBackend.apply_power_mode d cfg.power_mode).1 ++
            (match cfg.power_limit with
              | some l => NvidiaBackend.setPowerLimitStep d (l * 1000)
              | none => Step.ok).1, none)) ∧
      (∀ e, (NvidiaBackend.apply_power_mode d cfg.power_mode).2 = some e →
        NvidiaBackend.apply_config d cfg =
          ((NvidiaBackend.apply_power_mode d cfg.power_mode).1, some e)) ∧
      (∀ e, (NvidiaBackend.apply_power_mode d cfg.power_mode).2 = none →
        (match cfg.power_limit with
          | some l => NvidiaBackend.setPowerLimitStep d (l * 1000)
          | none => Step.ok).2 = some e →
        NvidiaBackend.apply_config d cfg =
          ((NvidiaBackend.apply_power_mode d cfg.power_mode).1 ++
            (match cfg.power_limit with
              | some l => NvidiaBackend.setPowerLimitStep d (l * 1000)
              | none => Step.ok).1, some e))) ∧
    (((AmdBackend.apply_power_mode da cfg.power_mode).2 = none →
        (match cfg.power_limit with
          | some l => AmdBackend.set_device_power_limit da l
          | none => Step.ok).2 = none →
        (match cfg.fan_curve with
          | some c => AmdBackend.apply_device_fan_curve da c
          | none => Step.ok).2 = none →
        AmdBackend.apply_config da cfg =
          ((AmdBackend.apply_power_mode da cfg.power_mode).1 ++
            ((match cfg.power_limit with
              | some l => AmdBackend.set_device_power_limit da l
              | none => Step.ok).1 ++
              (match cfg.fan_curve with
                | some c => AmdBackend.apply_device_fan_curve da c
                | none => Step.ok).1), none)) ∧
      (∀ e, (AmdBackend.apply_power_mode da cfg.power_mode).2 = some e →
        AmdBackend.apply_config da cfg =
          ((AmdBackend.apply_power_mode da cfg.power_mode).1, some e)) ∧
      (∀ e, (AmdBackend.apply_power_mode da cfg.power_mode).2 = none →
        (match cfg.power_limit with
          | some l => AmdBackend.set_device_power_limit da l
          | none => Step.ok).2 = some e →
        AmdBackend.apply_config da cfg =
          ((AmdBackend.apply_power_mode da cfg.power_mode).1 ++
            (match cfg.power_limit with
              | some l => AmdBackend.set_device_power_limit da l
              | none => Step.ok).1, some e)) ∧
      (∀ e, (AmdBackend.apply_power_mode da cfg.power_mode).2 = none →
        (match cfg.power_limit with
          | some l => AmdBackend.set_device_power_limit da l
          | none => Step.ok).2 = none →
        (match cfg.fan_curve with
          | some c => AmdBackend.apply_device_fan_curve da c
          | none => Step.ok).2 = some e →
        AmdBackend.apply_config da cfg =
          ((AmdBackend.apply_power_mode da cfg.power_mode).1 ++
            ((match cfg.power_limit with
              | some l => AmdBackend.set_device_power_limit da l
              | none => Step.ok).1 ++
              (match cfg.fan_curve with
                | some c => AmdBackend.apply_device_fan_curve da c
                | none => Step.ok).1), some e))) := by
  constructor
  · refine ⟨nv_fan_step_fails d, ?_, ?_, ?_⟩
    · intro hpm hpl
      unfold NvidiaBackend.apply_config
      rw [Step.andThen_ok_left _ _ hpm, Step.andThen_ok_left _ _ hpl,
        nv_tail_steps d cfg]
      simp
    · intro e hpm
      unfold NvidiaBackend.apply_config
      rw [Step.andThen_err_left _ _ e hpm]
    · intro e hpm hpl
      unfold NvidiaBackend.apply_config
      rw [Step.andThen_ok_left _ _ hpm, Step.andThen_err_left _ _ e hpl]
  · refine ⟨?_, ?_, ?_, ?_⟩
    · intro hpm hpl hfc
      unfold AmdBackend.apply_config
      rw [Step.andThen_ok_left _ _ hpm, Step.andThen_ok_left _ _ hpl]
      simp [hfc]
    · intro e hpm
      unfold AmdBackend.apply_config
      rw [Step.andThen_err_left _ _ e hpm]
    · intro e hpm hpl
      unfold AmdBackend.apply_config
      rw [Step.andThen_ok_left _ _ hpm, Step.andThen_err_left _ _ e hpl]
    · intro e hpm hpl hfc
      unfold AmdBackend.apply_config
      rw [Step.andThen_ok_left _ _ hpm, Step.andThen_ok_left _ _ hpl, hfc]

/-- C1 witness: on an AMD device whose power-cap write is denied, applying
a balanced config with an explicit 250 W limit surfaces the power error
while the already-written performance profile is not rolled back. -/
theorem C1_witness :
    AmdBackend.apply_config amdDevicePowerCapFails cfgBalancedWithLimit =
      ([.writePerformanceLevel "auto"],
        some (.powerError "Failed to set power limit: Permission denied")) := by
  have h := ((C1_apply_config_best_effort nvDeviceAllOk amdDevicePowerCapFails
    cfgBalancedWithLimit).2.2.2.1
    (.powerError "Failed to set power limit: Permission denied") rfl rfl)
  simpa using h

/-- C1 counterexample: on an NVIDIA device where every primitive succeeds,
applying a balanced config with a fan curve returns overall success even
though the fan-curve sub-step failed with `OperationNotSupported` — the
sub-step failure is not surfaced to the caller. -/
theorem C1_counterexample :
    (NvidiaBackend.apply_fan_curve nvDeviceAllOk FanCurve.aggressive).2 =
        some (.operationNotSupported "Fan control") ∧
    NvidiaBackend.apply_config nvDeviceAllOk cfgBalancedWithFan =
        ([.setPowerManagementLimit 180000], none) := by
  constructor <;> rfl

-- ===========================================================================
-- Claim C8: memory_used ≤ memory_total
-- ===========================================================================

/-- C8 (amended): both backends pass memory telemetry through without
clamping.  An AMD status satisfies `memory_used ≤ memory_total` exactly
when the parsed-or-default sysfs values do (used defaults to 0, total to
8589934592, the two fallbacks substituted independently), so in particular
the invariant holds whenever the used file is missing or unparsable; an
NVIDIA status returned successfully carries the NVML memory info verbatim,
so it satisfies the invariant iff the telemetry does. -/
theorem C8_memory_passthrough :
    (∀ (o : AmdFileOracle) (i : Nat),
        ((AmdBackend.get_device_status o i).memory_used ≤
            (AmdBackend.get_device_status o i).memory_total ↔
          (match o.mem_info_vram_used with
            | some (some used) => used
            | _ => 0) ≤
          (match o.mem_info_vram_total with
            | some (some total) => total
            | _ => 8589934592))) ∧
    (∀ (o : AmdFileOracle) (i : Nat),
        o.mem_info_vram_used = none ∨ o.mem_info_vram_used = some none →
        (AmdBackend.get_device_status o i).memory_used ≤
          (AmdBackend.get_device_status o i).memory_total) ∧
    (∀ (o : NvStatusOracle) (i : Nat) (s : GpuStatus),
        NvidiaBackend.get_device_status o i = .ok s →
        s.memory_used = o.memory_used ∧ s.memory_total = o.memory_total) := by
  refine ⟨?_, ?_, ?_⟩
  · intro o i
    rcases h1 : o.mem_info_vram_used with _ | (_ | used) <;>
      rcases h2 : o.mem_info_vram_total with _ | (_ | total) <;>
        simp [AmdBackend.get_device_status, AmdBackend.read_memory_info, h1, h2]
  · intro o i h
    rcases h with h | h <;>
      simp [AmdBackend.get_device_status, AmdBackend.read_memory_info, h]
  · intro o i s h
    simp only [NvidiaBackend.get_device_status] at h
    repeat' split at h
    all_goals first
      | exact Except.noConfusion h
      | (cases Except.ok.inj h; exact ⟨rfl, rfl⟩)

/-- C8 witness: with the used-VRAM sysfs file missing, the substituted
default of 0 bytes used satisfies the invariant against any total. -/
theorem C8_witness :
    (AmdBackend.get_device_status amdOracleNoUsed 0).memory_used ≤
      (AmdBackend.get_device_status amdOracleNoUsed 0).memory_total :=
  C8_memory_passthrough.2.1 amdOracleNoUsed 0 (Or.inl rfl)

/-- C8 counterexample: with sysfs reporting 100 bytes used and 50 bytes
total, the AMD backend produces a status with `memory_used > memory_total`
— the layer does not clamp, violating the claimed invariant. -/
theorem C8_counterexample :
    (AmdBackend.get_device_status amdOracleUsedExceedsTotal 0).memory_total <
      (AmdBackend.get_device_status amdOracleUsedExceedsTotal 0).memory_used := by
  decide

end HecateGpu
